import Mathlib

/-!
Verification of the JNI boundary layer `com_d3x_osqp_OsqpModel.c` of the
d3x-osqp repository.

The C file is a bridge between a managed (JVM) caller and the native OSQP
quadratic-programming solver.  This development gives a shallow embedding of
that file:

* Numeric values crossing the boundary (`jdouble`) are modelled as `ℚ`;
  the settings resolver only stores them or rounds them to an integer, so no
  floating-point arithmetic is lost in the translation.
* `c_int` (checked by the code itself to have the width of `long`, i.e.
  64 bits) and `jint` (32 bits) are modelled as `Int`, with the narrowing
  `(jint)` cast made explicit as reduction into `[-2^31, 2^31)`.
* The opaque collaborators (`osqp_setup`, `osqp_solve`, `c_malloc`,
  `osqp_set_default_settings`, the log capability) are oracle parameters:
  records describing the outcome the external library produces during the
  call.  The embedding describes exactly what the C file does with those
  outcomes.
* Resource handling (JNI `Get*ArrayElements` / `Release*ArrayElements`,
  `c_malloc` / `c_free`, `osqp_open_log` / `osqp_close_log`) is modelled as
  an event trace recorded in program order, so that lifecycle claims are
  statements about the trace.
-/

/-! ## Settings resolver (`d3x_assign_setting`, `d3x_create_settings`) -/

/-- `d3x_string_match` from the source: `strcmp(str1, str2) == 0`. -/
def d3x_string_match (str1 str2 : String) : Bool :=
  str1 == str2

/-- `d3x_to_int` from the source: `(int) round(value)`.  C's `round` rounds
half away from zero; on a rational `num/den` (`den > 0`) that is
`⌊(2*num + den) / (2*den)⌋` for nonnegative values and the mirrored value
for negative ones, written with integer floor division so it evaluates by
kernel reduction. -/
def d3x_to_int (value : ℚ) : Int :=
  if 0 ≤ value.num then (2 * value.num + (value.den : Int)).fdiv (2 * (value.den : Int))
  else -((2 * (-value.num) + (value.den : Int)).fdiv (2 * (value.den : Int)))

/-- The fields of `OSQPSettings` that `d3x_assign_setting` can touch.
`polish` and `max_iter` are integer fields in OSQP, the rest are
floating-point fields. -/
structure OSQPSettings where
  rho : ℚ
  sigma : ℚ
  alpha : ℚ
  polish : Int
  max_iter : Int
  eps_abs : ℚ
  eps_rel : ℚ
  eps_prim_inf : ℚ
  eps_dual_inf : ℚ
deriving DecidableEq, Repr

/-- `d3x_assign_setting` from the source: a case-sensitive string dispatch
on the parameter name.  The second component models the messages printed to
`stderr` (one message for an unrecognized name, nothing otherwise). -/
def d3x_assign_setting (paramName : String) (paramValue : ℚ)
    (settings : OSQPSettings) : OSQPSettings × List String :=
  if d3x_string_match paramName ("RHO") then
    ({ settings with rho := paramValue }, [])
  else if d3x_string_match paramName ("SIGMA") then
    ({ settings with sigma := paramValue }, [])
  else if d3x_string_match paramName ("ALPHA") then
    ({ settings with alpha := paramValue }, [])
  else if d3x_string_match paramName ("POLISH") then
    ({ settings with polish := d3x_to_int paramValue }, [])
  else if d3x_string_match paramName ("MAX_ITER") then
    ({ settings with max_iter := d3x_to_int paramValue }, [])
  else if d3x_string_match paramName ("EPS_ABS") then
    ({ settings with eps_abs := paramValue }, [])
  else if d3x_string_match paramName ("EPS_REL") then
    ({ settings with eps_rel := paramValue }, [])
  else if d3x_string_match paramName ("EPS_PRIM_INF") then
    ({ settings with eps_prim_inf := paramValue }, [])
  else if d3x_string_match paramName ("EPS_DUAL_INF") then
    ({ settings with eps_dual_inf := paramValue }, [])
  else
    (settings, ["Unknown setting parameter: [" ++ paramName ++ "].\n"])

/-- One step of the parameter loop in `d3x_create_settings`: thread the
settings record through `d3x_assign_setting` and accumulate `stderr`
output. -/
def d3x_settings_step (acc : OSQPSettings × List String)
    (p : String × ℚ) : OSQPSettings × List String :=
  let r := d3x_assign_setting p.1 p.2 acc.1
  (r.1, acc.2 ++ r.2)

/-- `d3x_create_settings` from the source, with the record produced by the
external `osqp_set_default_settings` supplied as the `defaults` parameter:
the code first forces `polish = 1` and then applies the caller-supplied
(name, value) pairs in caller order. -/
def d3x_create_settings (defaults : OSQPSettings)
    (params : List (String × ℚ)) : OSQPSettings × List String :=
  params.foldl d3x_settings_step ({ defaults with polish := 1 }, [])

/-- The settings component of the parameter loop, in isolation. -/
def settingsOnly (params : List (String × ℚ)) (settings : OSQPSettings) : OSQPSettings :=
  params.foldl (fun s p => (d3x_assign_setting p.1 p.2 s).1) settings

/-- The setting names recognized by `d3x_assign_setting`, in source
order. -/
def recognizedNames : List String :=
  ["RHO", "SIGMA", "ALPHA", "POLISH", "MAX_ITER",
   "EPS_ABS", "EPS_REL", "EPS_PRIM_INF", "EPS_DUAL_INF"]

/-- The value `d3x_assign_setting` stores for a recognized name: the raw
value for the floating-point fields, `round(value)` for the two integer
fields. -/
def transformVal (name : String) (v : ℚ) : ℚ :=
  if name = ("POLISH") ∨ name = ("MAX_ITER") then ((d3x_to_int v : Int) : ℚ) else v

/-- Read the settings field a recognized name dispatches to (as `ℚ`, the
integer fields coerced); `none` for unrecognized names. -/
def fieldVal (name : String) (s : OSQPSettings) : Option ℚ :=
  if name = ("RHO") then some s.rho
  else if name = ("SIGMA") then some s.sigma
  else if name = ("ALPHA") then some s.alpha
  else if name = ("POLISH") then some ((s.polish : Int) : ℚ)
  else if name = ("MAX_ITER") then some ((s.max_iter : Int) : ℚ)
  else if name = ("EPS_ABS") then some s.eps_abs
  else if name = ("EPS_REL") then some s.eps_rel
  else if name = ("EPS_PRIM_INF") then some s.eps_prim_inf
  else if name = ("EPS_DUAL_INF") then some s.eps_dual_inf
  else none

/-- The `stderr` diagnostics the parameter loop produces: one message per
unrecognized name, in order. -/
def unknownDiags : List (String × ℚ) → List String
  | [] => []
  | p :: rest =>
      (if p.1 ∈ recognizedNames then []
       else ["Unknown setting parameter: [" ++ p.1 ++ "].\n"]) ++ unknownDiags rest

/-- A concrete stand-in for the record produced by the external
`osqp_set_default_settings` (the library defaults are opaque to this layer;
every theorem quantifies over the defaults, this record only instantiates
witnesses). -/
def osqpDefaultSettings : OSQPSettings where
  rho := mkRat 1 10
  sigma := mkRat 1 1000000
  alpha := mkRat 8 5
  polish := 0
  max_iter := 4000
  eps_abs := mkRat 1 1000
  eps_rel := mkRat 1 1000
  eps_prim_inf := mkRat 1 10000
  eps_dual_inf := mkRat 1 10000

/-! ## Event-trace model of the boundary entry point

`Java_com_d3x_osqp_OsqpModel_run` is modelled as a function of the platform
width configuration, an allocation oracle (`c_malloc` outcomes), a solver
oracle (`osqp_setup` / `osqp_solve` outcomes) and the call's inputs.  It
returns the `jint` status, the final contents of the two caller-owned
output buffers, and the trace of resource events in program order. -/

/-- One resource event of the C file: JNI array/string acquisition and
release, native-heap allocation and deallocation, log open/close, and the
two opaque solver invocations. -/
inductive Event where
  | acquire : String → Event
  | release : String → Event
  | alloc : String → Event
  | dealloc : String → Event
  | openLog : Event
  | closeLog : Event
  | setup : Event
  | solve : Event
deriving DecidableEq, Repr

/-- Widths of the native numeric types, as `sizeof` sees them: the code
compares `sizeof(c_int)` with `sizeof(long)` and `sizeof(c_float)` with
`sizeof(double)`. -/
structure Platform where
  cIntSize : Nat
  longSize : Nat
  cFloatSize : Nat
  doubleSize : Nat
deriving DecidableEq, Repr

/-- Outcomes of the two `c_malloc` calls the C file performs itself
(`OSQPData` in `d3x_create_data`, `OSQPSettings` in
`d3x_create_settings`). -/
structure AllocOracle where
  dataOk : Bool
  settingsOk : Bool
deriving DecidableEq, Repr

/-- Outcome of the opaque solver during this call: whether `osqp_setup`
left `*work` null, the `c_int` it returned, the `c_int` returned by
`osqp_solve`, the solution vectors `workspace->solution->x/y`, and
`workspace->info->status_val`.  `c_int` values are 64-bit integers (the
code checks `sizeof(c_int) == sizeof(long)`). -/
structure SolverOracle where
  setupWorkNull : Bool
  setupStatus : Int
  solveStatus : Int
  solutionX : List ℚ
  solutionY : List ℚ
  statusVal : Int
deriving DecidableEq, Repr

/-- The arguments of one call to the JNI entry point, with array handles
carrying their contents, plus the pre-call contents of the two caller-owned
output buffers. -/
structure JNICall where
  numVar : Nat
  numDual : Nat
  logNameLen : Nat
  linObjCoeff : List ℚ
  quadObjRowInd : List Int
  quadObjColInd : List Int
  quadObjCoeff : List ℚ
  linConRowInd : List Int
  linConColInd : List Int
  linConCoeff : List ℚ
  linConLower : List ℚ
  linConUpper : List ℚ
  optPrimal : List ℚ
  optDual : List ℚ
  paramNames : List String
  paramValues : List ℚ
deriving DecidableEq, Repr

/-- What one call returns and leaves behind: the `jint` status, the final
contents of the caller-owned `optPrimal`/`optDual` buffers, and the
resource-event trace. -/
structure RunResult where
  status : Int
  primal : List ℚ
  dual : List ℚ
  events : List Event
deriving DecidableEq, Repr

/-- `SetDoubleArrayRegion(buf, 0, n, src)`: overwrite the first `n` entries
of `buf` with the first `n` entries of `src`. -/
def setRegion (buf : List ℚ) (n : Nat) (src : List ℚ) : List ℚ :=
  src.take n ++ buf.drop n

/-- The `(jint)` cast applied to a 64-bit `c_int` on return: reduction into
`[-2^31, 2^31)` (two's-complement truncation). -/
def toJint (v : Int) : Int :=
  (v + 2 ^ 31) % 2 ^ 32 - 2 ^ 31

/-- Event trace of `d3x_create_csc`: acquire the three triplet arrays,
allocate the triplet shell (`csc_matrix`) and the compressed-column result
(`triplet_to_csc`), free the shell, release the three arrays. -/
def d3x_create_csc_events (tag : String) : List Event :=
  [Event.acquire (tag ++ ".rowind"), Event.acquire (tag ++ ".colind"),
   Event.acquire (tag ++ ".coeffs"),
   Event.alloc (tag ++ ".triplet"), Event.alloc (tag ++ ".compcol"),
   Event.dealloc (tag ++ ".triplet"),
   Event.release (tag ++ ".rowind"), Event.release (tag ++ ".colind"),
   Event.release (tag ++ ".coeffs")]

/-- Event trace of `d3x_create_data`: nothing if the `OSQPData` malloc
fails (the function prints and returns null before acquiring anything);
otherwise the struct allocation, the acquisition of the `q`/`l`/`u`
arrays, and the construction of `A` (from the constraint triplet) then `P`
(from the quadratic-objective triplet). -/
def d3x_create_data_events (alloc : AllocOracle) : List Event :=
  if alloc.dataOk then
    [Event.alloc ("OSQPData"), Event.acquire ("linObjCoeff"),
     Event.acquire ("linConLower"), Event.acquire ("linConUpper")]
    ++ d3x_create_csc_events ("A") ++ d3x_create_csc_events ("P")
  else []

/-- Per-parameter string events of the settings loop: each iteration
acquires and releases the characters of one parameter name. -/
def paramStringEvents : Nat → List Event
  | 0 => []
  | Nat.succ n => Event.acquire ("paramName") :: Event.release ("paramName")
      :: paramStringEvents n

/-- Event trace of `d3x_create_settings`: nothing if the `OSQPSettings`
malloc fails; otherwise the struct allocation, the acquisition of the
values array, the per-name string events, and the release of the values
array. -/
def d3x_create_settings_events (alloc : AllocOracle) (paramCount : Nat) : List Event :=
  if alloc.settingsOk then
    [Event.alloc ("OSQPSettings"), Event.acquire ("paramValues")]
    ++ paramStringEvents paramCount ++ [Event.release ("paramValues")]
  else []

/-- Events of the log-redirection block: only when the log name is
non-empty, acquire the name's characters, open the log, release the
characters. -/
def logOpenEvents (logNameLen : Nat) : List Event :=
  if 0 < logNameLen then
    [Event.acquire ("logName"), Event.openLog, Event.release ("logName")]
  else []

/-- Event trace of `d3x_create_workspace`: `osqp_setup` runs (allocating
the workspace unless it left `*work` null); on a non-zero setup status the
partially created workspace is cleaned up again. -/
def d3x_create_workspace_events (sol : SolverOracle) : List Event :=
  if sol.setupWorkNull then [Event.setup]
  else if sol.setupStatus = 0 then [Event.setup, Event.alloc ("OSQPWorkspace")]
  else [Event.setup, Event.alloc ("OSQPWorkspace"), Event.dealloc ("OSQPWorkspace")]

/-- Whether `d3x_create_workspace` returns a workspace: `osqp_setup` left
`*work` non-null and returned status `0`. -/
def d3x_workspace_created (sol : SolverOracle) : Bool :=
  !sol.setupWorkNull && sol.setupStatus == 0

/-- Event trace of `d3x_free_data`: release the three borrowed arrays in
`Get` order, then free the two matrices and the struct. -/
def d3x_free_data_events : List Event :=
  [Event.release ("linObjCoeff"), Event.release ("linConLower"),
   Event.release ("linConUpper"),
   Event.dealloc ("A.compcol"), Event.dealloc ("P.compcol"),
   Event.dealloc ("OSQPData")]

/-- The teardown block at the end of `run` once a workspace exists:
`osqp_cleanup(workspace)`, `c_free(settings)`, `d3x_free_data(...)`,
`osqp_close_log()` — in that order. -/
def teardownEvents : List Event :=
  [Event.dealloc ("OSQPWorkspace"), Event.dealloc ("OSQPSettings")]
  ++ d3x_free_data_events ++ [Event.closeLog]

/-- Shallow embedding of `Java_com_d3x_osqp_OsqpModel_run`.  The structure
mirrors the C control flow: width preconditions, problem data and settings
creation, the null check on both, optional log opening, workspace
creation (early return with `osqp_close_log` on failure), `osqp_solve`,
the copy-back branch on solve status `0`, and the teardown block. -/
def Java_com_d3x_osqp_OsqpModel_run (pf : Platform) (alloc : AllocOracle)
    (sol : SolverOracle) (call : JNICall) : RunResult :=
  if pf.cIntSize ≠ pf.longSize then
    { status := -1, primal := call.optPrimal, dual := call.optDual, events := [] }
  else if pf.cFloatSize ≠ pf.doubleSize then
    { status := -1, primal := call.optPrimal, dual := call.optDual, events := [] }
  else
    let dataEv := d3x_create_data_events alloc
    let setEv := d3x_create_settings_events alloc call.paramNames.length
    if !(alloc.dataOk && alloc.settingsOk) then
      { status := -1, primal := call.optPrimal, dual := call.optDual,
        events := dataEv ++ setEv }
    else
      let ev2 := dataEv ++ setEv ++ logOpenEvents call.logNameLen
        ++ d3x_create_workspace_events sol
      if !(d3x_workspace_created sol) then
        { status := -1, primal := call.optPrimal, dual := call.optDual,
          events := ev2 ++ [Event.closeLog] }
      else
        if sol.solveStatus = 0 then
          { status := toJint sol.statusVal,
            primal := setRegion call.optPrimal call.numVar sol.solutionX,
            dual := setRegion call.optDual call.numDual sol.solutionY,
            events := ev2 ++ [Event.solve] ++ teardownEvents }
        else
          { status := toJint sol.solveStatus,
            primal := call.optPrimal, dual := call.optDual,
            events := ev2 ++ [Event.solve] ++ teardownEvents }

/-! ## Concrete instantiation data

Used by witnesses and counterexamples; every general theorem quantifies
over these. -/

/-- A matching width configuration: `c_int` as wide as `long`, `c_float`
as wide as `double` (the `DLONG`-on / `DFLOAT`-off build the code
requires). -/
def pfOk : Platform :=
  { cIntSize := 8, longSize := 8, cFloatSize := 8, doubleSize := 8 }

/-- A mismatched width configuration (`c_int` narrower than `long`, the
`DLONG`-off build). -/
def pfMismatch : Platform :=
  { cIntSize := 4, longSize := 8, cFloatSize := 4, doubleSize := 8 }

/-- Both `c_malloc` calls succeed. -/
def allocAllOk : AllocOracle :=
  { dataOk := true, settingsOk := true }

/-- `osqp_setup` allocates a workspace but reports a non-zero setup
status, so `d3x_create_workspace` cleans it up and returns null. -/
def solSetupFail : SolverOracle :=
  { setupWorkNull := false, setupStatus := 1, solveStatus := 0,
    solutionX := [], solutionY := [], statusVal := 0 }

/-- The solver outcome at a primal-infeasible problem, as §4.4/§6 of the
design describe it: `osqp_solve` itself succeeds (exit code `0`) and the
infeasibility is reported through the internal status code
(`status_val = -3`, OSQP's primal-infeasible value); the solution vectors
hold whatever the solver left there. -/
def solInfeasible : SolverOracle :=
  { setupWorkNull := false, setupStatus := 0, solveStatus := 0,
    solutionX := [0], solutionY := [0], statusVal := -3 }

/-- A successful setup and solve with a small internal status code. -/
def solSolvedOk : SolverOracle :=
  { setupWorkNull := false, setupStatus := 0, solveStatus := 0,
    solutionX := [0], solutionY := [mkRat 3 2], statusVal := 1 }

/-- A successful setup whose solve step fails with a small non-zero exit
code. -/
def solSolveFailSmall : SolverOracle :=
  { setupWorkNull := false, setupStatus := 0, solveStatus := 5,
    solutionX := [0], solutionY := [0], statusVal := 0 }

/-- A successful setup whose solve step returns the 64-bit exit code
`2^32`, a non-zero `c_int` outside the `jint` range. -/
def solSolveFailHuge : SolverOracle :=
  { setupWorkNull := false, setupStatus := 0, solveStatus := 4294967296,
    solutionX := [0], solutionY := [0], statusVal := 0 }

/-- A successful solve whose internal status code `2^32 + 5` lies outside
the `jint` range. -/
def solStatusValHuge : SolverOracle :=
  { setupWorkNull := false, setupStatus := 0, solveStatus := 0,
    solutionX := [3], solutionY := [4], statusVal := 4294967301 }

/-- A successful solve whose internal status code `2^32 - 1` is congruent
to `-1` modulo `2^32`. -/
def solStatusValWrap : SolverOracle :=
  { setupWorkNull := false, setupStatus := 0, solveStatus := 0,
    solutionX := [0], solutionY := [0], statusVal := 4294967295 }

/-- The infeasible one-variable, one-constraint scenario of §8:
`lowerBounds[0] = 5 > 1 = upperBounds[0]`, with pre-call output buffers
holding the sentinel value `7`, no log, no settings overrides. -/
def sampleCall : JNICall :=
  { numVar := 1, numDual := 1, logNameLen := 0,
    linObjCoeff := [1],
    quadObjRowInd := [], quadObjColInd := [], quadObjCoeff := [],
    linConRowInd := [0], linConColInd := [0], linConCoeff := [1],
    linConLower := [5], linConUpper := [1],
    optPrimal := [7], optDual := [7],
    paramNames := [], paramValues := [] }

/-- A `c_int` value representable in the 32-bit `jint` return type. -/
def jintRepresentable (v : Int) : Prop :=
  -(2 ^ 31) ≤ v ∧ v < 2 ^ 31

/-- An event that is not one of the teardown-block events (no release of
the borrowed problem arrays, no deallocation of workspace, settings,
matrices or data struct, no log close). -/
def notTeardownEvent (e : Event) : Bool :=
  !(teardownEvents.contains e)

/-! ### Basic lemmas about the settings resolver -/

lemma foldl_settings_step_fst (ps : List (String × ℚ)) (acc : OSQPSettings × List String) :
    (ps.foldl d3x_settings_step acc).1 = settingsOnly ps acc.1 := by
  induction ps generalizing acc with
  | nil => rfl
  | cons p rest ih =>
      simp only [List.foldl_cons, settingsOnly, d3x_settings_step]
      exact ih _

lemma create_settings_fst (defaults : OSQPSettings) (ps : List (String × ℚ)) :
    (d3x_create_settings defaults ps).1 = settingsOnly ps { defaults with polish := 1 } :=
  foldl_settings_step_fst ps _

lemma assign_setting_snd (n : String) (v : ℚ) (s : OSQPSettings) :
    (d3x_assign_setting n v s).2 =
      if n ∈ recognizedNames then []
      else ["Unknown setting parameter: [" ++ n ++ "].\n"] := by
  unfold d3x_assign_setting d3x_string_match recognizedNames
  split_ifs <;> simp_all

lemma assign_setting_unknown_fst (n : String) (v : ℚ) (s : OSQPSettings)
    (hn : n ∉ recognizedNames) : (d3x_assign_setting n v s).1 = s := by
  unfold d3x_assign_setting d3x_string_match
  simp only [recognizedNames] at hn
  split_ifs <;> simp_all

lemma foldl_settings_step_snd (ps : List (String × ℚ)) (acc : OSQPSettings × List String) :
    (ps.foldl d3x_settings_step acc).2 = acc.2 ++ unknownDiags ps := by
  induction ps generalizing acc with
  | nil => simp [unknownDiags]
  | cons p rest ih =>
      simp only [List.foldl_cons, unknownDiags]
      rw [ih]
      simp only [d3x_settings_step, assign_setting_snd, List.append_assoc]

lemma create_settings_snd (defaults : OSQPSettings) (ps : List (String × ℚ)) :
    (d3x_create_settings defaults ps).2 = unknownDiags ps := by
  unfold d3x_create_settings
  rw [foldl_settings_step_snd]
  rfl

lemma settingsOnly_append (a b : List (String × ℚ)) (s : OSQPSettings) :
    settingsOnly (a ++ b) s = settingsOnly b (settingsOnly a s) := by
  simp [settingsOnly, List.foldl_append]

lemma settingsOnly_cons (p : String × ℚ) (l : List (String × ℚ)) (s : OSQPSettings) :
    settingsOnly (p :: l) s = settingsOnly l (d3x_assign_setting p.1 p.2 s).1 := rfl

lemma fieldVal_assign_self (name : String) (v : ℚ) (s : OSQPSettings)
    (hmem : name ∈ recognizedNames) :
    fieldVal name (d3x_assign_setting name v s).1 = some (transformVal name v) := by
  simp only [recognizedNames, List.mem_cons, List.not_mem_nil, or_false] at hmem
  rcases hmem with rfl | rfl | rfl | rfl | rfl | rfl | rfl | rfl | rfl <;>
    simp [d3x_assign_setting, d3x_string_match, fieldVal, transformVal]

lemma assign_setting_RHO (v : ℚ) (s : OSQPSettings) :
    d3x_assign_setting ("RHO") v s = ({ s with rho := v }, []) := rfl

lemma assign_setting_SIGMA (v : ℚ) (s : OSQPSettings) :
    d3x_assign_setting ("SIGMA") v s = ({ s with sigma := v }, []) := rfl

lemma assign_setting_ALPHA (v : ℚ) (s : OSQPSettings) :
    d3x_assign_setting ("ALPHA") v s = ({ s with alpha := v }, []) := rfl

lemma assign_setting_POLISH (v : ℚ) (s : OSQPSettings) :
    d3x_assign_setting ("POLISH") v s = ({ s with polish := d3x_to_int v }, []) := rfl

lemma assign_setting_MAX_ITER (v : ℚ) (s : OSQPSettings) :
    d3x_assign_setting ("MAX_ITER") v s = ({ s with max_iter := d3x_to_int v }, []) := rfl

lemma assign_setting_EPS_ABS (v : ℚ) (s : OSQPSettings) :
    d3x_assign_setting ("EPS_ABS") v s = ({ s with eps_abs := v }, []) := rfl

lemma assign_setting_EPS_REL (v : ℚ) (s : OSQPSettings) :
    d3x_assign_setting ("EPS_REL") v s = ({ s with eps_rel := v }, []) := rfl

lemma assign_setting_EPS_PRIM_INF (v : ℚ) (s : OSQPSettings) :
    d3x_assign_setting ("EPS_PRIM_INF") v s = ({ s with eps_prim_inf := v }, []) := rfl

lemma assign_setting_EPS_DUAL_INF (v : ℚ) (s : OSQPSettings) :
    d3x_assign_setting ("EPS_DUAL_INF") v s = ({ s with eps_dual_inf := v }, []) := rfl

lemma fieldVal_not_recognized (name : String) (s : OSQPSettings)
    (h : name ∉ recognizedNames) : fieldVal name s = none := by
  simp only [recognizedNames, List.mem_cons, List.not_mem_nil, or_false] at h
  push_neg at h
  obtain ⟨h1, h2, h3, h4, h5, h6, h7, h8, h9⟩ := h
  simp [fieldVal, h1, h2, h3, h4, h5, h6, h7, h8, h9]

lemma fieldVal_assign_other (name n2 : String) (v : ℚ) (s : OSQPSettings)
    (hne : n2 ≠ name) :
    fieldVal name (d3x_assign_setting n2 v s).1 = fieldVal name s := by
  by_cases hname : name ∈ recognizedNames
  · by_cases hn2 : n2 ∈ recognizedNames
    · simp only [recognizedNames, List.mem_cons, List.not_mem_nil, or_false] at hname hn2
      rcases hname with rfl | rfl | rfl | rfl | rfl | rfl | rfl | rfl | rfl <;>
        rcases hn2 with rfl | rfl | rfl | rfl | rfl | rfl | rfl | rfl | rfl <;>
          first
          | exact absurd rfl hne
          | rfl
    · rw [assign_setting_unknown_fst _ _ _ hn2]
  · rw [fieldVal_not_recognized name _ hname, fieldVal_not_recognized name _ hname]

lemma fieldVal_settingsOnly (name : String) (l : List (String × ℚ)) (s : OSQPSettings)
    (hnot : name ∉ l.map Prod.fst) :
    fieldVal name (settingsOnly l s) = fieldVal name s := by
  induction l generalizing s with
  | nil => rfl
  | cons p rest ih =>
      simp only [List.map_cons, List.mem_cons] at hnot
      push_neg at hnot
      rw [settingsOnly_cons, ih _ hnot.2,
        fieldVal_assign_other name p.1 p.2 s (Ne.symm hnot.1)]

/-- Last-write-wins: in the resolved record, a recognized name holds the
(transformed) value of its last occurrence in caller order. -/
lemma lastWriteWins (defaults : OSQPSettings) (l₁ l₂ : List (String × ℚ))
    (name : String) (v : ℚ)
    (hmem : name ∈ recognizedNames) (hnot : name ∉ l₂.map Prod.fst) :
    fieldVal name (d3x_create_settings defaults (l₁ ++ (name, v) :: l₂)).1 =
      some (transformVal name v) := by
  rw [create_settings_fst, settingsOnly_append, settingsOnly_cons,
    fieldVal_settingsOnly _ _ _ hnot]
  exact fieldVal_assign_self _ _ _ hmem

lemma unknownDiags_append (a b : List (String × ℚ)) :
    unknownDiags (a ++ b) = unknownDiags a ++ unknownDiags b := by
  induction a with
  | nil => simp [unknownDiags]
  | cons p rest ih => simp [unknownDiags, ih]


/-! ### Lemmas about the run model -/

lemma toJint_eq_self (v : Int) (h : jintRepresentable v) : toJint v = v := by
  unfold jintRepresentable at h
  unfold toJint
  omega

lemma workspace_created_iff (sol : SolverOracle)
    (h : d3x_workspace_created sol = true) :
    sol.setupWorkNull = false ∧ sol.setupStatus = 0 := by
  simp only [d3x_workspace_created, Bool.and_eq_true, Bool.not_eq_true', beq_iff_eq] at h
  exact h

lemma run_width_mismatch (pf : Platform) (alloc : AllocOracle) (sol : SolverOracle)
    (call : JNICall) (h : pf.cIntSize ≠ pf.longSize ∨ pf.cFloatSize ≠ pf.doubleSize) :
    Java_com_d3x_osqp_OsqpModel_run pf alloc sol call =
      { status := -1, primal := call.optPrimal, dual := call.optDual, events := [] } := by
  rcases h with h | h
  · simp [Java_com_d3x_osqp_OsqpModel_run, h]
  · by_cases h2 : pf.cIntSize = pf.longSize
    · simp [Java_com_d3x_osqp_OsqpModel_run, h, h2]
    · simp [Java_com_d3x_osqp_OsqpModel_run, h2]

lemma run_solve_zero (pf : Platform) (alloc : AllocOracle) (sol : SolverOracle)
    (call : JNICall) (hint : pf.cIntSize = pf.longSize)
    (hfloat : pf.cFloatSize = pf.doubleSize) (hdata : alloc.dataOk = true)
    (hset : alloc.settingsOk = true) (hws : d3x_workspace_created sol = true)
    (hsolve : sol.solveStatus = 0) :
    Java_com_d3x_osqp_OsqpModel_run pf alloc sol call =
      { status := toJint sol.statusVal,
        primal := setRegion call.optPrimal call.numVar sol.solutionX,
        dual := setRegion call.optDual call.numDual sol.solutionY,
        events := d3x_create_data_events alloc
          ++ d3x_create_settings_events alloc call.paramNames.length
          ++ logOpenEvents call.logNameLen
          ++ d3x_create_workspace_events sol
          ++ [Event.solve] ++ teardownEvents } := by
  simp [Java_com_d3x_osqp_OsqpModel_run, hint, hfloat, hdata, hset, hws, hsolve]

lemma run_solve_nonzero (pf : Platform) (alloc : AllocOracle) (sol : SolverOracle)
    (call : JNICall) (hint : pf.cIntSize = pf.longSize)
    (hfloat : pf.cFloatSize = pf.doubleSize) (hdata : alloc.dataOk = true)
    (hset : alloc.settingsOk = true) (hws : d3x_workspace_created sol = true)
    (hsolve : sol.solveStatus ≠ 0) :
    Java_com_d3x_osqp_OsqpModel_run pf alloc sol call =
      { status := toJint sol.solveStatus,
        primal := call.optPrimal, dual := call.optDual,
        events := d3x_create_data_events alloc
          ++ d3x_create_settings_events alloc call.paramNames.length
          ++ logOpenEvents call.logNameLen
          ++ d3x_create_workspace_events sol
          ++ [Event.solve] ++ teardownEvents } := by
  simp [Java_com_d3x_osqp_OsqpModel_run, hint, hfloat, hdata, hset, hws, hsolve]

lemma all_paramStringEvents (p : Event → Bool)
    (h1 : p (Event.acquire ("paramName")) = true)
    (h2 : p (Event.release ("paramName")) = true) :
    ∀ n, (paramStringEvents n).all p = true := by
  intro n
  induction n with
  | zero => rfl
  | succ k ih => simp [paramStringEvents, h1, h2, ih]

lemma pre_all_notTeardown (alloc : AllocOracle) (sol : SolverOracle) (n L : Nat)
    (hdata : alloc.dataOk = true) (hset : alloc.settingsOk = true)
    (hnull : sol.setupWorkNull = false) (hstat : sol.setupStatus = 0) :
    ((d3x_create_data_events alloc ++ d3x_create_settings_events alloc n
      ++ logOpenEvents L ++ d3x_create_workspace_events sol
      ++ [Event.solve]).all notTeardownEvent) = true := by
  have hd : (d3x_create_data_events alloc).all notTeardownEvent = true := by
    unfold d3x_create_data_events
    rw [hdata]
    decide
  have hs : (d3x_create_settings_events alloc n).all notTeardownEvent = true := by
    unfold d3x_create_settings_events
    rw [hset]
    simp [List.all_append, all_paramStringEvents notTeardownEvent (by decide) (by decide) n]
    all_goals decide
  have hlg : (logOpenEvents L).all notTeardownEvent = true := by
    unfold logOpenEvents
    by_cases h : 0 < L
    · rw [if_pos h]; decide
    · rw [if_neg h]; decide
  have hw : (d3x_create_workspace_events sol).all notTeardownEvent = true := by
    unfold d3x_create_workspace_events
    rw [hnull]
    simp [hstat]
    all_goals decide
  simp [List.all_append, hd, hs, hlg, hw]
  all_goals decide

/-! ## Claims -/

/-- Claim C1 (code-bug evidence).  The claim says every native resource
allocated and every foreign-owned array acquired during a call to `run` is
released before the call returns on every exit path, in particular when
workspace initialization fails.  The code violates this: on the concrete
input where both mallocs succeed but `osqp_setup` reports a non-zero
status, `run` returns `-1` while the trace shows the `linObjCoeff`,
`linConLower` and `linConUpper` array elements acquired but never
released, and the `OSQPData` and `OSQPSettings` structs (and the `A`/`P`
compressed matrices) allocated but never freed. -/
theorem c1_early_exit_leak :
    (Java_com_d3x_osqp_OsqpModel_run pfOk allocAllOk solSetupFail sampleCall).status = -1 ∧
    ((Java_com_d3x_osqp_OsqpModel_run pfOk allocAllOk solSetupFail sampleCall).events.count
        (Event.acquire ("linObjCoeff")) = 1 ∧
      (Java_com_d3x_osqp_OsqpModel_run pfOk allocAllOk solSetupFail sampleCall).events.count
        (Event.release ("linObjCoeff")) = 0) ∧
    ((Java_com_d3x_osqp_OsqpModel_run pfOk allocAllOk solSetupFail sampleCall).events.count
        (Event.acquire ("linConLower")) = 1 ∧
      (Java_com_d3x_osqp_OsqpModel_run pfOk allocAllOk solSetupFail sampleCall).events.count
        (Event.release ("linConLower")) = 0) ∧
    ((Java_com_d3x_osqp_OsqpModel_run pfOk allocAllOk solSetupFail sampleCall).events.count
        (Event.acquire ("linConUpper")) = 1 ∧
      (Java_com_d3x_osqp_OsqpModel_run pfOk allocAllOk solSetupFail sampleCall).events.count
        (Event.release ("linConUpper")) = 0) ∧
    ((Java_com_d3x_osqp_OsqpModel_run pfOk allocAllOk solSetupFail sampleCall).events.count
        (Event.alloc ("OSQPData")) = 1 ∧
      (Java_com_d3x_osqp_OsqpModel_run pfOk allocAllOk solSetupFail sampleCall).events.count
        (Event.dealloc ("OSQPData")) = 0) ∧
    ((Java_com_d3x_osqp_OsqpModel_run pfOk allocAllOk solSetupFail sampleCall).events.count
        (Event.alloc ("OSQPSettings")) = 1 ∧
      (Java_com_d3x_osqp_OsqpModel_run pfOk allocAllOk solSetupFail sampleCall).events.count
        (Event.dealloc ("OSQPSettings")) = 0) ∧
    ((Java_com_d3x_osqp_OsqpModel_run pfOk allocAllOk solSetupFail sampleCall).events.count
        (Event.alloc ("A.compcol")) = 1 ∧
      (Java_com_d3x_osqp_OsqpModel_run pfOk allocAllOk solSetupFail sampleCall).events.count
        (Event.dealloc ("A.compcol")) = 0) := by
  decide

/-- Claim C2, counterexample.  The claim says that on an infeasible
problem (`lowerBounds[0] = 5, upperBounds[0] = 1`) the returned status
indicates infeasibility and the output buffers remain unmodified.  With
the solver reporting infeasibility the way §4.4 describes (solve exit
code `0`, internal status `-3`), the returned status is indeed `-3` but
the output buffers do NOT keep their pre-call values: the copy-back branch
runs and overwrites them with the solver's solution vectors. -/
theorem c2_counterexample :
    (Java_com_d3x_osqp_OsqpModel_run pfOk allocAllOk solInfeasible sampleCall).status = -3 ∧
    ¬((Java_com_d3x_osqp_OsqpModel_run pfOk allocAllOk solInfeasible sampleCall).primal
        = sampleCall.optPrimal ∧
      (Java_com_d3x_osqp_OsqpModel_run pfOk allocAllOk solInfeasible sampleCall).dual
        = sampleCall.optDual) := by
  decide

/-- Claim C2 (amended).  For a call on the infeasible scenario
(`lowerBounds = [5]`, `upperBounds = [1]`) in which the solver reports
infeasibility through the internal status code (solve exit code `0`,
`status_val = -3`), the returned status is `-3` and the output buffers are
overwritten with the solver's solution vectors (they are not preserved). -/
theorem c2_infeasible_status_and_buffers (pf : Platform) (alloc : AllocOracle)
    (sol : SolverOracle) (call : JNICall)
    (hint : pf.cIntSize = pf.longSize) (hfloat : pf.cFloatSize = pf.doubleSize)
    (hdata : alloc.dataOk = true) (hset : alloc.settingsOk = true)
    (hlow : call.linConLower = [5]) (hupp : call.linConUpper = [1])
    (hws : d3x_workspace_created sol = true)
    (hsolve : sol.solveStatus = 0) (hval : sol.statusVal = -3) :
    (Java_com_d3x_osqp_OsqpModel_run pf alloc sol call).status = -3 ∧
    (Java_com_d3x_osqp_OsqpModel_run pf alloc sol call).primal
      = setRegion call.optPrimal call.numVar sol.solutionX ∧
    (Java_com_d3x_osqp_OsqpModel_run pf alloc sol call).dual
      = setRegion call.optDual call.numDual sol.solutionY := by
  rw [run_solve_zero pf alloc sol call hint hfloat hdata hset hws hsolve]
  refine ⟨?_, rfl, rfl⟩
  show toJint sol.statusVal = -3
  rw [hval]
  decide

/-- Claim C2 (amended), witness at the concrete infeasible scenario. -/
theorem c2_infeasible_status_and_buffers_witness :
    (Java_com_d3x_osqp_OsqpModel_run pfOk allocAllOk solInfeasible sampleCall).status = -3 ∧
    (Java_com_d3x_osqp_OsqpModel_run pfOk allocAllOk solInfeasible sampleCall).primal
      = setRegion sampleCall.optPrimal sampleCall.numVar solInfeasible.solutionX ∧
    (Java_com_d3x_osqp_OsqpModel_run pfOk allocAllOk solInfeasible sampleCall).dual
      = setRegion sampleCall.optDual sampleCall.numDual solInfeasible.solutionY :=
  c2_infeasible_status_and_buffers pfOk allocAllOk solInfeasible sampleCall
    (by decide) (by decide) (by decide) (by decide) rfl rfl (by decide) rfl rfl

/-- Claim C3, counterexample.  The claim says that when the solve step
returns a non-zero code, that raw code is returned as the call's status.
With the 64-bit solve exit code `2^32` (non-zero), the `(jint)` cast in
`return (jint) status` truncates it to `0`, so the raw code is not
returned (the caller even sees the success-shaped value `0`). -/
theorem c3_counterexample :
    solSolveFailHuge.solveStatus ≠ 0 ∧
    (Java_com_d3x_osqp_OsqpModel_run pfOk allocAllOk solSolveFailHuge sampleCall).status = 0 ∧
    (Java_com_d3x_osqp_OsqpModel_run pfOk allocAllOk solSolveFailHuge sampleCall).status
      ≠ solSolveFailHuge.solveStatus := by
  decide

/-- Claim C3 (amended).  For every call in which the solve step returns a
non-zero status code, the caller's primal and dual output buffers are left
untouched and the code, reduced to the 32-bit `jint` return type, is
returned; whenever the code is representable in 32 bits (which covers the
solver's documented enumeration) the raw code itself is returned. -/
theorem c3_solve_failure_passthrough (pf : Platform) (alloc : AllocOracle)
    (sol : SolverOracle) (call : JNICall)
    (hint : pf.cIntSize = pf.longSize) (hfloat : pf.cFloatSize = pf.doubleSize)
    (hdata : alloc.dataOk = true) (hset : alloc.settingsOk = true)
    (hws : d3x_workspace_created sol = true) (hsolve : sol.solveStatus ≠ 0) :
    (Java_com_d3x_osqp_OsqpModel_run pf alloc sol call).primal = call.optPrimal ∧
    (Java_com_d3x_osqp_OsqpModel_run pf alloc sol call).dual = call.optDual ∧
    (Java_com_d3x_osqp_OsqpModel_run pf alloc sol call).status = toJint sol.solveStatus ∧
    (jintRepresentable sol.solveStatus →
      (Java_com_d3x_osqp_OsqpModel_run pf alloc sol call).status = sol.solveStatus) := by
  rw [run_solve_nonzero pf alloc sol call hint hfloat hdata hset hws hsolve]
  exact ⟨rfl, rfl, rfl, fun h => toJint_eq_self _ h⟩

/-- Claim C3 (amended), witness at a small non-zero solve exit code. -/
theorem c3_solve_failure_passthrough_witness :
    (Java_com_d3x_osqp_OsqpModel_run pfOk allocAllOk solSolveFailSmall sampleCall).primal
      = sampleCall.optPrimal ∧
    (Java_com_d3x_osqp_OsqpModel_run pfOk allocAllOk solSolveFailSmall sampleCall).dual
      = sampleCall.optDual ∧
    (Java_com_d3x_osqp_OsqpModel_run pfOk allocAllOk solSolveFailSmall sampleCall).status
      = toJint solSolveFailSmall.solveStatus ∧
    (jintRepresentable solSolveFailSmall.solveStatus →
      (Java_com_d3x_osqp_OsqpModel_run pfOk allocAllOk solSolveFailSmall sampleCall).status
        = solSolveFailSmall.solveStatus) :=
  c3_solve_failure_passthrough pfOk allocAllOk solSolveFailSmall sampleCall
    (by decide) (by decide) (by decide) (by decide) (by decide) (by decide)

/-- Claim C4, counterexample.  The claim says that on solve exit code `0`
the returned status is overwritten with the solver's internal status code.
With the 64-bit internal status `2^32 + 5`, the `(jint)` cast truncates
the returned value to `5`, which differs from the internal status code
(the copy-back itself does happen: the primal buffer now holds the
solution vector). -/
theorem c4_counterexample :
    (Java_com_d3x_osqp_OsqpModel_run pfOk allocAllOk solStatusValHuge sampleCall).status = 5 ∧
    (Java_com_d3x_osqp_OsqpModel_run pfOk allocAllOk solStatusValHuge sampleCall).status
      ≠ solStatusValHuge.statusVal ∧
    (Java_com_d3x_osqp_OsqpModel_run pfOk allocAllOk solStatusValHuge sampleCall).primal
      = [3] := by
  decide

/-- Claim C4 (amended).  For every call in which the solve step returns
status code `0`, the solution's primal vector (first `numVar` entries) and
dual vector (first `numDual` entries) are copied into the caller-owned
output buffers, and the returned status is the solver's internal status
code reduced to the 32-bit `jint` return type — equal to the internal
status code itself whenever that code is representable in 32 bits. -/
theorem c4_solve_success_copyback (pf : Platform) (alloc : AllocOracle)
    (sol : SolverOracle) (call : JNICall)
    (hint : pf.cIntSize = pf.longSize) (hfloat : pf.cFloatSize = pf.doubleSize)
    (hdata : alloc.dataOk = true) (hset : alloc.settingsOk = true)
    (hws : d3x_workspace_created sol = true) (hsolve : sol.solveStatus = 0) :
    (Java_com_d3x_osqp_OsqpModel_run pf alloc sol call).primal
      = setRegion call.optPrimal call.numVar sol.solutionX ∧
    (Java_com_d3x_osqp_OsqpModel_run pf alloc sol call).dual
      = setRegion call.optDual call.numDual sol.solutionY ∧
    (Java_com_d3x_osqp_OsqpModel_run pf alloc sol call).status = toJint sol.statusVal ∧
    (jintRepresentable sol.statusVal →
      (Java_com_d3x_osqp_OsqpModel_run pf alloc sol call).status = sol.statusVal) := by
  rw [run_solve_zero pf alloc sol call hint hfloat hdata hset hws hsolve]
  exact ⟨rfl, rfl, rfl, fun h => toJint_eq_self _ h⟩

/-- Claim C4 (amended), witness at a successful solve with a small
internal status code. -/
theorem c4_solve_success_copyback_witness :
    (Java_com_d3x_osqp_OsqpModel_run pfOk allocAllOk solSolvedOk sampleCall).primal
      = setRegion sampleCall.optPrimal sampleCall.numVar solSolvedOk.solutionX ∧
    (Java_com_d3x_osqp_OsqpModel_run pfOk allocAllOk solSolvedOk sampleCall).dual
      = setRegion sampleCall.optDual sampleCall.numDual solSolvedOk.solutionY ∧
    (Java_com_d3x_osqp_OsqpModel_run pfOk allocAllOk solSolvedOk sampleCall).status
      = toJint solSolvedOk.statusVal ∧
    (jintRepresentable solSolvedOk.statusVal →
      (Java_com_d3x_osqp_OsqpModel_run pfOk allocAllOk solSolvedOk sampleCall).status
        = solSolvedOk.statusVal) :=
  c4_solve_success_copyback pfOk allocAllOk solSolvedOk sampleCall
    (by decide) (by decide) (by decide) (by decide) (by decide) rfl

/-- Claim C5.  For every call in which the numeric-width precondition
fails (the solver's integer width differs from `long`'s, or its
floating-point width differs from `double`'s), the call returns status
`-1` with an empty resource-event trace — so no allocation was performed,
the solver was never invoked (no setup or solve event), and the output
buffers keep their pre-call contents. -/
theorem c5_width_mismatch (pf : Platform) (alloc : AllocOracle)
    (sol : SolverOracle) (call : JNICall)
    (h : pf.cIntSize ≠ pf.longSize ∨ pf.cFloatSize ≠ pf.doubleSize) :
    (Java_com_d3x_osqp_OsqpModel_run pf alloc sol call).status = -1 ∧
    (Java_com_d3x_osqp_OsqpModel_run pf alloc sol call).primal = call.optPrimal ∧
    (Java_com_d3x_osqp_OsqpModel_run pf alloc sol call).dual = call.optDual ∧
    (Java_com_d3x_osqp_OsqpModel_run pf alloc sol call).events = [] := by
  rw [run_width_mismatch pf alloc sol call h]
  exact ⟨rfl, rfl, rfl, rfl⟩

/-- Claim C5, witness at a 4-byte `c_int` configuration. -/
theorem c5_width_mismatch_witness :
    (Java_com_d3x_osqp_OsqpModel_run pfMismatch allocAllOk solSolvedOk sampleCall).status = -1 ∧
    (Java_com_d3x_osqp_OsqpModel_run pfMismatch allocAllOk solSolvedOk sampleCall).primal
      = sampleCall.optPrimal ∧
    (Java_com_d3x_osqp_OsqpModel_run pfMismatch allocAllOk solSolvedOk sampleCall).dual
      = sampleCall.optDual ∧
    (Java_com_d3x_osqp_OsqpModel_run pfMismatch allocAllOk solSolvedOk sampleCall).events = [] :=
  c5_width_mismatch pfMismatch allocAllOk solSolvedOk sampleCall (Or.inl (by decide))

/-- Claim C6.  On every path on which the solver workspace was created
(`d3x_create_workspace` returned non-null), the event trace ends with the
teardown block in the fixed order — release solver workspace, free the
settings record, release the problem instance (borrowed arrays released,
matrices and struct freed), close the log sink — and no teardown event
occurs anywhere before that block, so the workspace is never torn down
after the settings or problem resources it referenced are freed. -/
theorem c6_teardown_order (pf : Platform) (alloc : AllocOracle)
    (sol : SolverOracle) (call : JNICall)
    (hint : pf.cIntSize = pf.longSize) (hfloat : pf.cFloatSize = pf.doubleSize)
    (hdata : alloc.dataOk = true) (hset : alloc.settingsOk = true)
    (hws : d3x_workspace_created sol = true) :
    ∃ pre, (Java_com_d3x_osqp_OsqpModel_run pf alloc sol call).events
        = pre ++ teardownEvents ∧ pre.all notTeardownEvent = true := by
  obtain ⟨hnull, hstat⟩ := workspace_created_iff sol hws
  refine ⟨d3x_create_data_events alloc
    ++ d3x_create_settings_events alloc call.paramNames.length
    ++ logOpenEvents call.logNameLen ++ d3x_create_workspace_events sol
    ++ [Event.solve], ?_,
    pre_all_notTeardown alloc sol call.paramNames.length call.logNameLen
      hdata hset hnull hstat⟩
  by_cases hsolve : sol.solveStatus = 0
  · rw [run_solve_zero pf alloc sol call hint hfloat hdata hset hws hsolve]
  · rw [run_solve_nonzero pf alloc sol call hint hfloat hdata hset hws hsolve]

/-- Claim C6, witness at a successful setup and solve. -/
theorem c6_teardown_order_witness :
    ∃ pre, (Java_com_d3x_osqp_OsqpModel_run pfOk allocAllOk solSolvedOk sampleCall).events
        = pre ++ teardownEvents ∧ pre.all notTeardownEvent = true :=
  c6_teardown_order pfOk allocAllOk solSolvedOk sampleCall
    (by decide) (by decide) (by decide) (by decide) (by decide)

/-- Claim C7.  For every settings input in which the same name appears
more than once, the resolved record holds the (transformed) value of the
last occurrence of that name in caller-supplied order, whatever appears
before it and whatever other names follow it. -/
theorem c7_settings_last_write_wins (defaults : OSQPSettings)
    (l₁ l₂ : List (String × ℚ)) (name : String) (v : ℚ)
    (hmem : name ∈ recognizedNames) (hnot : name ∉ l₂.map Prod.fst) :
    fieldVal name (d3x_create_settings defaults (l₁ ++ (name, v) :: l₂)).1 =
      some (transformVal name v) :=
  lastWriteWins defaults l₁ l₂ name v hmem hnot

/-- Claim C7, witness: for names `RHO, EPS_ABS, RHO` with values
`0.5, 1e-4, 0.9`, the resolved record has `rho = 0.9` (the last `RHO`
write wins) and `eps_abs = 1e-4`. -/
theorem c7_settings_last_write_wins_witness :
    fieldVal ("RHO") (d3x_create_settings osqpDefaultSettings
        ([(("RHO"), mkRat 1 2), (("EPS_ABS"), mkRat 1 10000)]
          ++ (("RHO"), mkRat 9 10) :: [])).1
      = some (mkRat 9 10) ∧
    fieldVal ("EPS_ABS") (d3x_create_settings osqpDefaultSettings
        ([(("RHO"), mkRat 1 2)] ++ (("EPS_ABS"), mkRat 1 10000)
          :: [(("RHO"), mkRat 9 10)])).1
      = some (mkRat 1 10000) := by
  constructor
  · have h := c7_settings_last_write_wins osqpDefaultSettings
      [(("RHO"), mkRat 1 2), (("EPS_ABS"), mkRat 1 10000)] [] ("RHO") (mkRat 9 10)
      (by decide) (by decide)
    simpa [transformVal] using h
  · have h := c7_settings_last_write_wins osqpDefaultSettings
      [(("RHO"), mkRat 1 2)] [(("RHO"), mkRat 9 10)] ("EPS_ABS") (mkRat 1 10000)
      (by decide) (by decide)
    simpa [transformVal] using h

/-- Claim C8.  A settings entry whose name lies outside the recognized
enumeration is diagnostic-only: the resolved record is exactly the one
obtained with that entry removed (no known field is altered and resolution
continues through the remaining entries), and the unknown-parameter
message for that name is emitted to the error stream; resolution never
fails on it. -/
theorem c8_unknown_setting (defaults : OSQPSettings) (l₁ l₂ : List (String × ℚ))
    (n : String) (v : ℚ) (hn : n ∉ recognizedNames) :
    (d3x_create_settings defaults (l₁ ++ (n, v) :: l₂)).1
      = (d3x_create_settings defaults (l₁ ++ l₂)).1 ∧
    ("Unknown setting parameter: [" ++ n ++ "].\n")
      ∈ (d3x_create_settings defaults (l₁ ++ (n, v) :: l₂)).2 := by
  constructor
  · rw [create_settings_fst, create_settings_fst, settingsOnly_append, settingsOnly_append,
      settingsOnly_cons, assign_setting_unknown_fst n v _ hn]
  · rw [create_settings_snd, unknownDiags_append]
    refine List.mem_append_right _ ?_
    simp [unknownDiags, hn]

/-- Claim C8, witness: the unknown name `FOO` between two recognized
entries. -/
theorem c8_unknown_setting_witness :
    ((d3x_create_settings osqpDefaultSettings
        ([(("RHO"), mkRat 1 2)] ++ (("FOO"), 1) :: [(("EPS_ABS"), 2)])).1
      = (d3x_create_settings osqpDefaultSettings
          ([(("RHO"), mkRat 1 2)] ++ [(("EPS_ABS"), 2)])).1) ∧
    ("Unknown setting parameter: [" ++ "FOO" ++ "].\n")
      ∈ (d3x_create_settings osqpDefaultSettings
          ([(("RHO"), mkRat 1 2)] ++ (("FOO"), 1) :: [(("EPS_ABS"), 2)])).2 :=
  c8_unknown_setting osqpDefaultSettings [(("RHO"), mkRat 1 2)] [(("EPS_ABS"), 2)]
    ("FOO") 1 (by decide)

/-- Claim C9, counterexample.  The claim says the status code produced by
the solver is returned to the caller unmodified for every value the solver
can produce.  The 64-bit internal status `2^32 - 1` (a legal `c_int`,
since the code itself checks `sizeof(c_int) == sizeof(long)`) comes back
as `-1` after the `(jint)` cast — not the produced value, and colliding
with the reserved setup-failure code. -/
theorem c9_counterexample :
    (Java_com_d3x_osqp_OsqpModel_run pfOk allocAllOk solStatusValWrap sampleCall).status = -1 ∧
    (Java_com_d3x_osqp_OsqpModel_run pfOk allocAllOk solStatusValWrap sampleCall).status
      ≠ solStatusValWrap.statusVal := by
  decide

/-- Claim C9 (amended).  For every call that reaches the solve step, the
status code produced by the solver — the solve exit code, or the internal
status when the exit code is `0` — is returned reduced to the 32-bit
`jint` return type; every produced value representable in 32 bits is
returned unmodified. -/
theorem c9_status_passthrough (pf : Platform) (alloc : AllocOracle)
    (sol : SolverOracle) (call : JNICall)
    (hint : pf.cIntSize = pf.longSize) (hfloat : pf.cFloatSize = pf.doubleSize)
    (hdata : alloc.dataOk = true) (hset : alloc.settingsOk = true)
    (hws : d3x_workspace_created sol = true) :
    (Java_com_d3x_osqp_OsqpModel_run pf alloc sol call).status
      = toJint (if sol.solveStatus = 0 then sol.statusVal else sol.solveStatus) ∧
    (jintRepresentable (if sol.solveStatus = 0 then sol.statusVal else sol.solveStatus) →
      (Java_com_d3x_osqp_OsqpModel_run pf alloc sol call).status
        = (if sol.solveStatus = 0 then sol.statusVal else sol.solveStatus)) := by
  by_cases hsolve : sol.solveStatus = 0
  · rw [run_solve_zero pf alloc sol call hint hfloat hdata hset hws hsolve, if_pos hsolve]
    exact ⟨rfl, fun h => toJint_eq_self _ h⟩
  · rw [run_solve_nonzero pf alloc sol call hint hfloat hdata hset hws hsolve, if_neg hsolve]
    exact ⟨rfl, fun h => toJint_eq_self _ h⟩

/-- Claim C9 (amended), witness at a successful solve with a small
internal status code. -/
theorem c9_status_passthrough_witness :
    (Java_com_d3x_osqp_OsqpModel_run pfOk allocAllOk solSolvedOk sampleCall).status
      = toJint (if solSolvedOk.solveStatus = 0 then solSolvedOk.statusVal
          else solSolvedOk.solveStatus) ∧
    (jintRepresentable (if solSolvedOk.solveStatus = 0 then solSolvedOk.statusVal
          else solSolvedOk.solveStatus) →
      (Java_com_d3x_osqp_OsqpModel_run pfOk allocAllOk solSolvedOk sampleCall).status
        = (if solSolvedOk.solveStatus = 0 then solSolvedOk.statusVal
            else solSolvedOk.solveStatus)) :=
  c9_status_passthrough pfOk allocAllOk solSolvedOk sampleCall
    (by decide) (by decide) (by decide) (by decide) (by decide)

/-- Claim C10.  The forced `polish = 1` product default is applied before
the caller-supplied overrides, so for every settings input containing a
`POLISH` entry the resolved record's `polish` field equals `round(value)`
of the last `POLISH` entry — in particular a caller can disable polish by
supplying a value that rounds to `0`, despite the forced default. -/
theorem c10_polish_override (defaults : OSQPSettings) (l₁ l₂ : List (String × ℚ))
    (v : ℚ) (hnot : ("POLISH") ∉ l₂.map Prod.fst) :
    (d3x_create_settings defaults (l₁ ++ (("POLISH"), v) :: l₂)).1.polish
      = d3x_to_int v := by
  have h := lastWriteWins defaults l₁ l₂ ("POLISH") v (by decide) hnot
  have h2 : fieldVal ("POLISH")
      (d3x_create_settings defaults (l₁ ++ (("POLISH"), v) :: l₂)).1
      = some (((d3x_create_settings defaults (l₁ ++ (("POLISH"), v) :: l₂)).1.polish : ℚ)) :=
    rfl
  have h3 : transformVal ("POLISH") v = ((d3x_to_int v : Int) : ℚ) := rfl
  rw [h2, h3] at h
  exact_mod_cast Option.some.inj h

/-- Claim C10, witness: the override value `0.2` rounds to `0` and so
disables polish despite the forced `polish = 1` default. -/
theorem c10_polish_override_witness :
    (d3x_create_settings osqpDefaultSettings
        ([] ++ (("POLISH"), mkRat 1 5) :: [])).1.polish = 0 := by
  have h := c10_polish_override osqpDefaultSettings [] [] (mkRat 1 5) (by decide)
  rw [h]
  decide
